import Mathlib

/-
  Verification development for the discourse-lens pipeline.

  Shallow embedding of the relevant source modules:
    - src/analysis/build_analysis_json.py  (analysis artifact validation)
    - src/analysis/schema.py               (AnalysisV4 shape)
    - src/webapp/services/job_manager.py   (worker loop, counters, degraded reads)
    - src/webapp/routers/jobs.py           (HTTP surface for degraded reads)
    - src/analysis/phenomenon_enricher.py  (match-or-mint, enrichment run)
    - src/analysis/phenomenon_fingerprint.py (evidence bundles, cluster ordering)
    - src/analysis/quant_engine.py         (comment structure mapper)

  Python dictionaries are modelled as records whose optional keys are Option
  values; Python truthiness (None, 0, empty string and empty collection are
  falsy) is made explicit by small helper functions.  External library
  primitives that the repository calls but does not define (Unicode NFC
  normalization, SHA-256, UUIDv5, embedding models, the database client) are
  modelled as function parameters or as explicit outcome values, so that every
  theorem quantifies over their behaviour.
-/

set_option maxRecDepth 10000

namespace DiscourseLens

/-- Python truthiness of an optional string: None and the empty string are falsy. -/
def optStrTruthy : Option String → Bool
  | some s => s ≠ ""
  | none => false

/-- Python str.lower restricted to the ASCII range (all inputs we evaluate are ASCII). -/
def pyLower (s : String) : String := ⟨s.data.map Char.toLower⟩

/-- A JSON-like Python value, used to model jsonb columns and dict payloads. -/
inductive PyVal where
  | vNull
  | vBool (b : Bool)
  | vInt (n : Int)
  | vStr (s : String)
  | vArr (xs : List PyVal)
  | vObj (fields : List (String × PyVal))

/-- Python truthiness of a value: None, False, 0, empty string and empty
collections are falsy, everything else is truthy. -/
def PyVal.truthy : PyVal → Bool
  | .vNull => false
  | .vBool b => b
  | .vInt n => n ≠ 0
  | .vStr s => s ≠ ""
  | .vArr xs => ¬xs.isEmpty
  | .vObj fields => ¬fields.isEmpty

/-! ## Analysis schema (src/analysis/schema.py)

The pydantic models are closed records.  Timestamps are modelled as abstract
epoch numbers: a datetime object is always truthy, so only presence matters. -/

/-- Metrics (schema.py lines 7-10). -/
structure Metrics where
  likes : Int
  views : Option Int
  replies : Option Int

/-- ToneProfile (schema.py lines 13-18). -/
structure ToneProfile where
  primary : Option String
  cynicism : Option Rat
  hope : Option Rat
  outrage : Option Rat
  notes : Option String

/-- SegmentSample (schema.py lines 21-25). -/
structure SegmentSample where
  comment_id : Option String
  user : Option String
  text : String
  likes : Option Int

/-- Segment (schema.py lines 28-32). -/
structure Segment where
  label : String
  share : Option Rat
  samples : List SegmentSample
  linguistic_features : List String

/-- NarrativeStack (schema.py lines 35-38). -/
structure NarrativeStack where
  l1 : Option String
  l2 : Option String
  l3 : Option String

/-- Phenomenon (schema.py lines 41-46). -/
structure Phenomenon where
  id : Option String
  status : Option String
  name : Option String
  description : Option String
  ai_image : Option String

/-- DangerBlock (schema.py lines 49-51). -/
structure DangerBlock where
  bot_homogeneity_score : Option Rat
  notes : Option String

/-- PostBlock (schema.py lines 54-61).  The timestamp field is an optional
datetime; we model it by an optional epoch second count. -/
structure PostBlock where
  post_id : String
  author : Option String
  text : Option String
  link : Option String
  images : List String
  timestamp : Option Nat
  metrics : Metrics

/-- SummaryCompat (schema.py lines 73-75). -/
structure SummaryCompat where
  one_line : Option String
  narrative_type : Option String

/-- BattlefieldCompat (schema.py lines 78-79). -/
structure BattlefieldCompat where
  factions : List Segment

/-- AnalysisV4 (schema.py lines 82-95).  The model has no analysis_version
field and no evidence field; Config.extra = "ignore" discards any extra data
passed to the constructor. -/
structure AnalysisV4 where
  post : PostBlock
  phenomenon : Phenomenon
  emotional_pulse : ToneProfile
  segments : List Segment
  narrative_stack : NarrativeStack
  danger : Option DangerBlock
  full_report : Option String
  summary : Option SummaryCompat
  battlefield : Option BattlefieldCompat

/-! ## validate_analysis_json (src/analysis/build_analysis_json.py lines 419-458) -/

/-- validate_analysis_json, translated line by line.

Notes on the translation:
  - safe_get(analysis_v4, "analysis_version", "v4"): AnalysisV4 declares no
    analysis_version field, so model_dump never contains the key and safe_get
    always yields the default "v4"; we inline that value.
  - hasattr(analysis_v4, "evidence") is False for every AnalysisV4 instance
    (no such field exists and extra attributes are discarded by the pydantic
    config), so evidence_count is always 0 and the branch guarded by
    "evidence_count < 2" is taken unconditionally.
  - Falsiness of post_id / text follows Python: the empty string is falsy.
    A datetime value is always truthy, so the timestamp check is isNone. -/
def validate_analysis_json (a : AnalysisV4) : Bool × String × List String :=
  let version := "v4"
  if version ≠ "v4" ∧ version ≠ "v4.1" then
    (false, "unsupported_version:" ++ version, ["analysis_version"])
  else
    let m0 : List String := []
    let m1 := if a.post.post_id = "" then m0 ++ ["post.id"] else m0
    let m2 := if ¬optStrTruthy a.post.text then m1 ++ ["post.text"] else m1
    let m3 := if a.post.timestamp.isNone then m2 ++ ["post.created_at"] else m2
    let m4 :=
      if ¬optStrTruthy a.phenomenon.id ∧ ¬optStrTruthy a.phenomenon.name ∧
          a.phenomenon.status ≠ some "pending" then
        m3 ++ ["phenomenon.id_or_name"]
      else m3
    let evidence_count : Nat := 0
    let m5 := if evidence_count < 2 then m4 ++ ["phenomenon.evidence>=2"] else m4
    if m5 ≠ [] then (false, "missing_required_fields", m5) else (true, "", [])

/-- A fully populated artifact: version allowlisted, post identity complete,
phenomenon marked pending, and (as for every AnalysisV4) no evidence block. -/
def c1Artifact : AnalysisV4 :=
  { post :=
      { post_id := "p1"
        author := some "analyst"
        text := some "hello world"
        link := some "https://www.threads.net/@u/post/ABC"
        images := []
        timestamp := some 1700000000
        metrics := { likes := 10, views := none, replies := none } }
    phenomenon :=
      { id := none, status := some "pending", name := none
        description := none, ai_image := none }
    emotional_pulse :=
      { primary := none, cynicism := none, hope := none, outrage := none, notes := none }
    segments := []
    narrative_stack := { l1 := none, l2 := none, l3 := none }
    danger := none
    full_report := none
    summary := none
    battlefield := none }

/-! ## Pipeline A worker loop (src/webapp/services/job_manager.py lines 536-646)

We model the processing of one claimed item on the Pipeline A path (lines
549-622).  External effects are inputs: the runner call either returns an
optional post id or raises; post-id recovery returns an optional id; the
threads_posts row lookup is a function from post ids to optional rows. -/

/-- The two columns of a threads_posts row that the worker inspects:
analysis_json is a jsonb column (None or a JSON value), full_report is a text
column (None or a string). -/
structure PostRowA where
  analysis_json : Option PyVal
  full_report : Option String

/-- Truthiness of the analysis_json column, as in bool(post_row.get("analysis_json")). -/
def analysisTruthy : Option PyVal → Bool
  | some v => v.truthy
  | none => false

/-- Terminal outcome for one item: either complete_job_item with the post id,
or fail_job_item with an error-code prefix and the stage recorded. -/
inductive ItemOutcome where
  | completed (post_id : String)
  | failed (code : String) (stage : String)
deriving DecidableEq

/-- The bump_job_counters arguments implied by an outcome:
(p_is_success, p_is_failed).  Every terminal path bumps exactly one flag. -/
def ItemOutcome.bump : ItemOutcome → Bool × Bool
  | .completed _ => (true, false)
  | .failed _ _ => (false, true)

/-- The post id the worker ends up using: the runner result if truthy, else
the recovery result (job_manager.py lines 591-593; note "if not post_id" also
treats the empty string as missing). -/
def resolvedPid (runnerPid : Option String) (recovered : Option String) : Option String :=
  if optStrTruthy runnerPid then runnerPid else recovered

/-- One Pipeline A item (job_manager.py lines 580-622).
currentStage is the value of the current_stage variable when the runner
returns (it is advanced by stage callbacks).  runner is the awaited
run_pipeline_a_job call: an exception or an optional post id.  getPost is the
threads_posts lookup by id. -/
def processItemA (currentStage : String) (runner : Except String (Option String))
    (recovered : Option String) (getPost : String → Option PostRowA) : ItemOutcome :=
  match runner with
  | .error _ => .failed "RUNNER_ERROR" currentStage
  | .ok runnerPid =>
    match resolvedPid runnerPid recovered with
    | none => .failed "POST_ID_NOT_FOUND" currentStage
    | some pid =>
      if ¬optStrTruthy (some pid) then .failed "POST_ID_NOT_FOUND" currentStage
      else
        let post_row := getPost pid
        let has_analysis :=
          match post_row with
          | some row => analysisTruthy row.analysis_json || optStrTruthy row.full_report
          | none => false
        if has_analysis then .completed pid
        else
          let stage_for_fail :=
            if currentStage = "analyst" ∨ currentStage = "store" then "analyst" else currentStage
          .failed "ANALYSIS_MISSING" stage_for_fail

/-! ## Phenomenon enricher (src/analysis/phenomenon_enricher.py)

External calls (embedding model, supabase RPCs and table writes) are inputs of
type Except String, where the error carries the exception text. -/

/-- PhenomenonMatchResult (phenomenon_enricher.py lines 52-59). -/
structure PhenomenonMatchResult where
  phenomenon_id : String
  status : String
  decision : String
  confidence : Rat
  ruleset_version : String
  case_id : String
deriving DecidableEq

/-- A row returned by the match_phenomena_v768 RPC: an optional id and an
optional similarity score.  A missing or failed-to-convert similarity is
treated as 0 by the source, which we model with getD 0. -/
structure Candidate where
  id : Option String
  similarity : Option Rat
deriving DecidableEq

/-- Outcomes of the external calls made by _match_or_mint. -/
structure MatchEnv where
  embedResult : Except String (List Rat)
  rpcResult : Except String (List Candidate)
  threshold : Rat

/-- EMBED_DIM (src/analysis/embeddings.py): registry vectors are 768-wide. -/
def EMBED_DIM : Nat := 768

/-- MATCH_RULESET_VERSION (phenomenon_fingerprint.py line 9). -/
def MATCH_RULESET_VERSION : String := "v1"

/-- The minted branch of _match_or_mint (lines 240-247): deterministic
uuid5(NAMESPACE_UUID, fingerprint) id and confidence 100. -/
def mintedResult (uuid5 : String → String) (fingerprint case_id : String) :
    PhenomenonMatchResult :=
  { phenomenon_id := uuid5 fingerprint
    status := "minted"
    decision := "MINT_NEW"
    confidence := 100
    ruleset_version := MATCH_RULESET_VERSION
    case_id := case_id }

/-- _match_or_mint (phenomenon_enricher.py lines 195-247).  uuid5 models
uuid.uuid5 applied with the fixed NAMESPACE_UUID; it is an arbitrary function
of the fingerprint text, which is all the claims use (uuid5 is deterministic).
Every exception inside the try block (embedding failure, dimension mismatch,
RPC failure) falls through to the mint branch. -/
def match_or_mint (uuid5 : String → String) (env : MatchEnv)
    (fingerprint case_id : String) : PhenomenonMatchResult :=
  match env.embedResult with
  | .error _ => mintedResult uuid5 fingerprint case_id
  | .ok emb =>
    if emb.length ≠ EMBED_DIM then mintedResult uuid5 fingerprint case_id
    else
      match env.rpcResult with
      | .error _ => mintedResult uuid5 fingerprint case_id
      | .ok candidates =>
        match candidates with
        | [] => mintedResult uuid5 fingerprint case_id
        | best :: _ =>
          if best.similarity.getD 0 ≥ env.threshold ∧ optStrTruthy best.id then
            { phenomenon_id := best.id.getD ""
              status := "matched"
              decision := "MATCH_EXISTING"
              confidence := best.similarity.getD 0 * 100
              ruleset_version := MATCH_RULESET_VERSION
              case_id := case_id }
          else mintedResult uuid5 fingerprint case_id

/-- The condition under which _match_or_mint takes the matched branch. -/
def matchedCond (env : MatchEnv) : Prop :=
  ∃ emb candidates best rest,
    env.embedResult = .ok emb ∧ emb.length = EMBED_DIM ∧
    env.rpcResult = .ok candidates ∧ candidates = best :: rest ∧
    best.similarity.getD 0 ≥ env.threshold ∧ optStrTruthy best.id = true

/-! ### Enrichment run (_run_safe and _patch_analysis) -/

/-- The slice of the analysis payload dict that _patch_analysis reads and
writes.  phen_id and phen_status model analysis_payload["phenomenon"]["id"]
and ["status"]; the remaining fields are top-level keys written by the patch. -/
structure C3Payload where
  phen_id : Option String
  phen_status : Option String
  phenomenon_status : Option String
  phenomenon_case_id : Option String
  match_ruleset_version : Option String
  fingerprint_version : Option String
  registry_version : Option String
deriving DecidableEq

/-- Outcomes of the external calls made during one enrichment run. -/
structure EnrichEnv where
  embedResult : Except String (List Rat)
  patchUpdateOutcome : Except String Unit
  registryUpsertOutcome : Except String Unit
  incrementRpcOutcome : Except String Unit
  unexpectedCrash : Option String

/-- The operator hint appended when the increment_occurrence RPC fails
(phenomenon_enricher.py line 329). -/
def occurrenceHint : String :=
  "Run: supabase db push (migration missing) or ensure backend uses SERVICE_ROLE key"

/-- The registry-upsert block of _patch_analysis (lines 306-330), as the
Except computation guarded by the outer try.  The returned Bool records
whether the increment_occurrence RPC ran successfully.  The inner try around
the RPC re-raises a RuntimeError carrying the operator hint (lines 322-330). -/
def registryUpsertStep (env : EnrichEnv) : Except String Bool :=
  match env.embedResult with
  | .error e => .error e
  | .ok emb =>
    if emb.length ≠ EMBED_DIM then .error "Registry upsert embedding dim mismatch"
    else
      match env.registryUpsertOutcome with
      | .error e => .error e
      | .ok _ =>
        match env.incrementRpcOutcome with
        | .ok _ => .ok true
        | .error e => .error ("RPC increment_occurrence failed: " ++ e ++ ". " ++ occurrenceHint)

/-- Observable result of _patch_analysis. -/
structure PatchOutcome where
  skipped : Bool
  payload : C3Payload
  dbPatchWarning : Option String
  registryWarning : Option String
  occurrenceIncremented : Bool
deriving DecidableEq

/-- The guard at lines 261-266: the patch is applied unless the payload
already carries a finalized phenomenon (truthy id with a status outside
pending/failed/provisional). -/
def patchEligible (payload : C3Payload) : Bool :=
  let existing_status := pyLower (payload.phen_status.getD "")
  ¬(optStrTruthy payload.phen_id ∧
    existing_status ≠ "pending" ∧ existing_status ≠ "failed" ∧ existing_status ≠ "provisional")

/-- _patch_analysis (phenomenon_enricher.py lines 249-332).  The function
never raises: the analysis_json update failure is logged (lines 300-304) and
the whole registry-upsert block is wrapped in a try whose handler only logs a
warning (lines 331-332). -/
def patch_analysis (env : EnrichEnv) (post_id : String) (payload : C3Payload)
    (m : PhenomenonMatchResult) : PatchOutcome :=
  if post_id = "" then
    { skipped := true, payload := payload, dbPatchWarning := none
      registryWarning := none, occurrenceIncremented := false }
  else if ¬patchEligible payload then
    { skipped := true, payload := payload, dbPatchWarning := none
      registryWarning := none, occurrenceIncremented := false }
  else
    let payload2 : C3Payload :=
      { phen_id := some m.phenomenon_id
        phen_status := some m.status
        phenomenon_status := some m.status
        phenomenon_case_id := some m.case_id
        match_ruleset_version := some m.ruleset_version
        fingerprint_version := some "v1"
        registry_version := some "v1" }
    let dbWarn := match env.patchUpdateOutcome with
      | .ok _ => none
      | .error e => some e
    match registryUpsertStep env with
    | .ok inc =>
      { skipped := false, payload := payload2, dbPatchWarning := dbWarn
        registryWarning := none, occurrenceIncremented := inc }
    | .error e =>
      { skipped := false, payload := payload2, dbPatchWarning := dbWarn
        registryWarning := some e, occurrenceIncremented := false }

/-- Observable trace of one _run_safe execution. -/
structure RunTrace where
  enrichment_status : String
  enrichment_last_error : Option String
  retryIncremented : Bool
  patch : PatchOutcome
deriving DecidableEq

/-- _run_safe (phenomenon_enricher.py lines 149-193).  Bundle construction
and match-or-mint are pure and never raise (all their external calls are
caught internally), and _patch_analysis never raises, so the except branch of
the try (lines 178-193, which marks enrichment_status = failed and bumps the
retry counter) is reachable only through an unexpected exception, modelled by
env.unexpectedCrash.  On the normal path the run always ends by marking
enrichment_status = completed (lines 167-177), whatever the patch outcome. -/
def run_safe (env : EnrichEnv) (post_id : String) (payload : C3Payload)
    (m : PhenomenonMatchResult) : RunTrace :=
  match env.unexpectedCrash with
  | some e =>
    { enrichment_status := "failed"
      enrichment_last_error := some e
      retryIncremented := true
      patch :=
        { skipped := true, payload := payload, dbPatchWarning := none
          registryWarning := none, occurrenceIncremented := false } }
  | none =>
    { enrichment_status := "completed"
      enrichment_last_error := none
      retryIncremented := false
      patch := patch_analysis env post_id payload m }

/-! ## Job summary counters (src/webapp/services/job_manager.py lines 295-360)

get_job_summary derives all counters from the selected job_items rows; we
model the rows by their status and stage columns (both nullable text). -/

/-- One job_items row as read by get_job_summary. -/
structure JobItemRow where
  status : Option String
  stage : Option String
deriving DecidableEq

/-- An item is counted as success when status or stage reads completed (line 329). -/
def successPred (it : JobItemRow) : Bool :=
  it.status = some "completed" ∨ it.stage = some "completed"

/-- An item is counted as failed when status or stage reads failed (line 330). -/
def failedPred (it : JobItemRow) : Bool :=
  it.status = some "failed" ∨ it.stage = some "failed"

/-- The counter block of the summary (lines 328-331 and 348-360):
total = number of rows, success and failed are the two counts above,
processed = success + failed. -/
structure SummaryCounters where
  total_count : Nat
  success_count : Nat
  failed_count : Nat
  processed_count : Nat
deriving DecidableEq

/-- get_job_summary, restricted to its counter computation. -/
def summaryCounters (items : List JobItemRow) : SummaryCounters :=
  let total := items.length
  let success := items.countP successPred
  let failed := items.countP failedPred
  { total_count := total
    success_count := success
    failed_count := failed
    processed_count := success + failed }

/-- The derived job status (lines 338-346).  heartbeatAge is the age in
seconds of last_heartbeat_at when present. -/
def summaryStatus (items : List JobItemRow) (heartbeatAge : Option Rat) : String :=
  let c := summaryCounters items
  let base :=
    if c.total_count > 0 ∧ c.processed_count ≥ c.total_count then
      if c.failed_count > 0 then "failed" else "completed"
    else "processing"
  match heartbeatAge with
  | some age =>
    if c.total_count > 0 ∧ c.processed_count < c.total_count ∧ age > 60 then "stale" else base
  | none => base

/-! ## Comment structure mapper (src/analysis/quant_engine.py)

The embedder, PCA, KMeans and the cosine-similarity matrix are external
(numpy / sklearn / sentence-transformers); their outcomes are inputs.  The
similarity matrix is a function of the two valid-comment indices. -/

/-- One raw comment dict, restricted to the keys the mapper reads. -/
structure CommentC where
  text : Option String
  user : Option String
  like_count : Option Int
  likes : Option Int
deriving DecidableEq

/-- Python whitespace characters recognised by str.strip and the regex
class backslash-s (ASCII range; the inputs we evaluate are ASCII). -/
def isPySpace (c : Char) : Bool :=
  c = ' ' ∨ c = '\t' ∨ c = '\n' ∨ c = '\x0b' ∨ c = '\x0c' ∨ c = '\r'

/-- Python str.strip on a character list. -/
def pyStripChars (l : List Char) : List Char :=
  ((l.dropWhile isPySpace).reverse.dropWhile isPySpace).reverse

/-- Python str.strip. -/
def pyStrip (s : String) : String := ⟨pyStripChars s.data⟩

/-- The text of a comment as filtered at lines 97-98: (c.get("text") or "").strip(). -/
def commentText (c : CommentC) : String := pyStrip (c.text.getD "")

/-- The filtering pass at lines 88-100: keep the comments whose stripped text
has length at least MIN_LEN = 5, in order, and return their original indices
with the stripped texts. -/
def validComments (comments : List CommentC) : List (Nat × String) :=
  ((List.range comments.length).map
      (fun idx => (idx, commentText ((comments.getD idx { text := none, user := none, like_count := none, likes := none }))))).filter
    (fun p => p.2.length ≥ 5)

/-- The ordered pair list traversed by the echo loop (lines 150-151):
for i in range(n): for j in range(i+1, n). -/
def pairList (n : Nat) : List (Nat × Nat) :=
  (List.range n).flatMap (fun i => ((List.range n).filter (fun j => i < j)).map (fun j => (i, j)))

/-- The marking condition of the echo loop (lines 152-157), for the pair of
valid indices (i, j) with i < j: similarity above 0.94, the FIRST text of the
pair long enough (the source checks len(valid_texts[i]) only), and both users
present and distinct. -/
def echoCond (sim : Nat → Nat → Rat) (texts : List String) (users : List (Option String))
    (p : Nat × Nat) : Bool :=
  let is_high_sim := sim p.1 p.2 > 94 / 100
  let is_long_enough := (texts.getD p.1 "").length ≥ 8
  let user_i := (users.getD p.1 none)
  let user_j := (users.getD p.2 none)
  let is_diff_user := optStrTruthy user_i ∧ optStrTruthy user_j ∧ user_i ≠ user_j
  is_high_sim ∧ is_long_enough ∧ is_diff_user

/-- The echo / template-like detection loop (lines 144-162): accumulate the
marked valid indices (echo_indices) and the high-similarity pair counter. -/
def echoScan (sim : Nat → Nat → Rat) (texts : List String) (users : List (Option String))
    (n : Nat) : List Nat × Nat :=
  (pairList n).foldl
    (fun acc p => if echoCond sim texts users p then (acc.1 ++ [p.1, p.2], acc.2 + 1) else acc)
    ([], 0)

/-- Outcomes of the external numeric libraries used by one mapper run. -/
structure QuantEnv where
  embedOk : Bool
  sim : Nat → Nat → Rat
  simOk : Bool
  kmeansLabels : Except String (List Nat)

/-- Python round(x, 2): round half away from zero is what CPython implements
for floats only approximately (bankers rounding on the scaled value); the
claims never exercise a tie, so we use round-to-nearest on 100 x. -/
def pyRound2 (x : Rat) : Rat := (round (x * 100) : Int) / 100

/-- The fields of the perform_structure_mapping result dict that the claims
reference (lines 297-306).  node_data, clusters, assignments and the
persistence report are carried by the real dict as well but play no role in
any claim; echo_indices records which valid indices were marked
is_template_like. -/
structure QuantResult where
  cluster_stats : List (Nat × Nat)
  high_sim_pairs : Nat
  math_homogeneity : Rat
  n_clusters : Nat
  echo_indices : List Nat
deriving DecidableEq

/-- Tally of the label list into (label, count) pairs in first-seen order
(lines 178-181). -/
def labelStats (labels : List Nat) : List (Nat × Nat) :=
  labels.foldl
    (fun acc lab =>
      if acc.any (fun p => p.1 = lab) then
        acc.map (fun p => if p.1 = lab then (p.1, p.2 + 1) else p)
      else acc ++ [(lab, 1)])
    []

/-- perform_structure_mapping (quant_engine.py lines 79-306), restricted to
the statistical outputs.

  - Empty comment list: return None immediately (lines 84-86).
  - No valid comments after filtering: return None (lines 102-104).
  - Embedding failure: return None (lines 106-111).
  - Clustering (lines 127-142): fewer than 3 valid comments give a single
    zero cluster; 3 to 10 ask KMeans for 2 clusters, more for
    max(2, min(4, count // 8 or 2)); a KMeans failure falls back to a single
    zero cluster.
  - Echo detection (lines 144-162) runs when count is at least 2 and the
    similarity computation succeeds; a failure leaves no marks.
  - math_homogeneity (lines 183-189) = round(dominant / total, 2), and 1.0
    when no label was counted. -/
def perform_structure_mapping (env : QuantEnv) (comments : List CommentC) :
    Option QuantResult :=
  if comments.isEmpty then none
  else
    let valid := validComments comments
    let valid_indices := valid.map (·.1)
    let valid_texts := valid.map (·.2)
    if valid_texts.isEmpty then none
    else if ¬env.embedOk then none
    else
      let count := valid_texts.length
      let labelsAndK : List Nat × Nat :=
        if count < 3 then (List.replicate count 0, 1)
        else
          let k := if count ≤ 10 then 2
            else max 2 (min 4 (if count / 8 = 0 then 2 else count / 8))
          match env.kmeansLabels with
          | .ok ls => (ls, k)
          | .error _ => (List.replicate count 0, 1)
      let labels := labelsAndK.1
      let users := valid_indices.map
        (fun idx => (comments.getD idx { text := none, user := none, like_count := none, likes := none }).user)
      let echo :=
        if count ≥ 2 ∧ env.simOk then echoScan env.sim valid_texts users count else ([], 0)
      let stats := labelStats labels
      let total_clustered := (stats.map (·.2)).sum
      let homogeneity :=
        if total_clustered > 0 then
          pyRound2 ((((stats.map (·.2)).max?).getD 0 : Nat) / (total_clustered : Rat))
        else 1
      some
        { cluster_stats := stats
          high_sim_pairs := echo.2
          math_homogeneity := homogeneity
          n_clusters := labelsAndK.2
          echo_indices := (echo.1.map (fun i => valid_indices.getD i 0)) }

/-! ## Fingerprint and evidence bundle (src/analysis/phenomenon_fingerprint.py)

Two stdlib primitives are parameters of every definition:
  - nfc models unicodedata.normalize("NFC", .); on the ASCII inputs of every
    concrete evaluation below it is the identity.
  - sha models hashlib.sha256(.).hexdigest(); the claims use it only as a
    deterministic function of its input text.
Dictionaries are association lists in insertion order, so a permutation of a
dict is a permutation of the list; the stable Python sorted call is modelled by
insertion sort, which has the same stable, total-preorder semantics. -/

/-- TRIGGER_MAX_LEN (line 11). -/
def TRIGGER_MAX_LEN : Nat := 2400

/-- ARTIFACT_MAX_LEN (line 12). -/
def ARTIFACT_MAX_LEN : Nat := 2400

/-- REACTION_MAX_LEN (line 13). -/
def REACTION_MAX_LEN : Nat := 3200

/-- TOP_M_CLUSTER_SAMPLES (line 14). -/
def TOP_M_CLUSTER_SAMPLES : Nat := 3

/-- TOP_K_GLOBAL_REACTIONS (line 15). -/
def TOP_K_GLOBAL_REACTIONS : Nat := 5

/-- Collapse every maximal whitespace run into a single space, as
re.sub(whitespace-plus, " ", text) does.  The Bool argument records whether
the previous character belonged to a run. -/
def collapseAux : Bool → List Char → List Char
  | _, [] => []
  | prevWs, c :: cs =>
    if isPySpace c then
      if prevWs then collapseAux true cs else ' ' :: collapseAux true cs
    else c :: collapseAux false cs

/-- normalize_text (phenomenon_fingerprint.py lines 19-36): NFC of the
BOM-stripped text, whitespace collapsed, trimmed, lowercased, optionally
truncated to max_len characters.  str.replace removes every BOM character;
str.lower is modelled for the ASCII range. -/
def normalize_text (nfc : String → String) (text : String) (max_len : Option Nat) : String :=
  if text = "" then ""
  else
    let normalized := nfc ⟨text.data.filter (· ≠ '\uFEFF')⟩
    let collapsed := ((pyStripChars (collapseAux false normalized.data)).map Char.toLower)
    match max_len with
    | some m =>
      if m > 0 ∧ collapsed.length > m then ⟨collapsed.take m⟩ else ⟨collapsed⟩
    | none => ⟨collapsed⟩

/-- One sample dict inside a cluster summary, restricted to the keys read by
the fingerprint module.  A missing text key and an empty text behave
identically everywhere (both are falsy and str(get("text","")) yields ""), so
text is a plain string. -/
structure FpSample where
  like_count : Option Int
  likes : Option Int
  text : String
deriving DecidableEq

/-- _coerce_int(s.get("like_count") or s.get("likes") or 0): Python or skips
falsy values, so an explicit 0 falls through to the next key. -/
def likeOf (s : FpSample) : Int :=
  match s.like_count with
  | some v => if v = 0 then (match s.likes with | some w => w | none => 0) else v
  | none => match s.likes with | some w => w | none => 0

/-- One cluster dict of a cluster summary. -/
structure FpCluster where
  size : Option Rat
  count : Option Rat
  share : Option Rat
  pct : Option Rat
  percentage : Option Rat
  samples : List FpSample
deriving DecidableEq

/-- Keep an optional number only when truthy (None and 0 are falsy). -/
def ratTruthy : Option Rat → Option Rat
  | some v => if v = 0 then none else some v
  | none => none

/-- _cluster_size (lines 46-59): the size or count key when present, else the
first truthy of share / pct / percentage, else 0. -/
def cluster_size (c : FpCluster) : Rat :=
  match c.size with
  | some v => v
  | none =>
    match c.count with
    | some v => v
    | none => ((ratTruthy c.share).orElse (fun _ => (ratTruthy c.pct).orElse (fun _ => ratTruthy c.percentage))).getD 0

/-- Ascending comparison on the sort key (-like_count, normalized_text) used
by cluster_signature_hash (line 68) and by the global reaction sort (line 115). -/
def sampleKey (nfc : String → String) (s : FpSample) : Int × String :=
  (-(likeOf s), normalize_text nfc s.text none)

/-- Lexicographic order on an integer-string pair.  Python compares strings
code point by code point; the builtin Lean String order has the same
semantics but is defined by well-founded recursion, which kernel evaluation
cannot unfold, so all string comparisons below go through the underlying
character lists. -/
def lexLE (a b : Int × String) : Prop :=
  a.1 < b.1 ∨ (a.1 = b.1 ∧ a.2.data ≤ b.2.data)

instance : DecidableRel lexLE := fun a b => by unfold lexLE; infer_instance

/-- The relation that sorted(samples, key=sampleKey) sorts by. -/
def sampleLE (nfc : String → String) (s t : FpSample) : Prop :=
  lexLE (sampleKey nfc s) (sampleKey nfc t)

instance (nfc : String → String) : DecidableRel (sampleLE nfc) := fun s t => by
  unfold sampleLE; infer_instance

/-- cluster_signature_hash (lines 62-72): sha256 of the newline join of the
normalized texts of the top TOP_M samples ordered by (-likes, text), keeping
only samples with truthy raw text. -/
def cluster_signature_hash (sha nfc : String → String) (samples : List FpSample) : String :=
  let ordered := List.insertionSort (sampleLE nfc) samples
  let chosen := ordered.take TOP_M_CLUSTER_SAMPLES
  let joined := String.intercalate "\n"
    ((chosen.filter (fun s => s.text ≠ "")).map (fun s => normalize_text nfc s.text none))
  sha joined

/-- An entry of the ordered cluster list: (cid, info, signature hash). -/
def OcItem : Type := String × FpCluster × String

instance : DecidableEq OcItem := by unfold OcItem; infer_instance

/-- The sort key of order_clusters (line 88): size descending then signature
hash ascending, encoded as the ascending key (-size, sig). -/
def ocKey (it : OcItem) : Rat × String := (-(cluster_size it.2.1), it.2.2)

/-- Lexicographic order on a rational-string pair (strings compared as
character lists, see lexLE). -/
def lexLEQ (a b : Rat × String) : Prop :=
  a.1 < b.1 ∨ (a.1 = b.1 ∧ a.2.data ≤ b.2.data)

instance : DecidableRel lexLEQ := fun a b => by unfold lexLEQ; infer_instance

/-- The relation that items.sort(key=ocKey) sorts by. -/
def ocLE (a b : OcItem) : Prop := lexLEQ (ocKey a) (ocKey b)

instance : DecidableRel ocLE := fun a b => by unfold ocLE; infer_instance

instance : IsTotal OcItem ocLE := by
  constructor
  intro a b
  unfold ocLE lexLEQ
  rcases lt_trichotomy (ocKey a).1 (ocKey b).1 with h | h | h
  · exact Or.inl (Or.inl h)
  · rcases le_total (ocKey a).2.data (ocKey b).2.data with h2 | h2
    · exact Or.inl (Or.inr ⟨h, h2⟩)
    · exact Or.inr (Or.inr ⟨h.symm, h2⟩)
  · exact Or.inr (Or.inl h)

instance : IsTrans OcItem ocLE := by
  constructor
  intro a b c h1 h2
  unfold ocLE lexLEQ at h1 h2 ⊢
  rcases h1 with h1 | ⟨h1e, h1s⟩
  · rcases h2 with h2 | ⟨h2e, h2s⟩
    · exact Or.inl (lt_trans h1 h2)
    · exact Or.inl (h2e ▸ h1)
  · rcases h2 with h2 | ⟨h2e, h2s⟩
    · exact Or.inl (h1e ▸ h2)
    · exact Or.inr ⟨h1e.trans h2e, le_trans h1s h2s⟩

/-- The per-cluster annotation step of order_clusters (lines 82-87). -/
def mkOcItems (sha nfc : String → String) (summary : List (String × FpCluster)) : List OcItem :=
  summary.map (fun p => (p.1, p.2, cluster_signature_hash sha nfc p.2.samples))

/-- order_clusters (lines 75-89): annotate each cluster with its signature
hash, then stable-sort by size descending and signature ascending. -/
def order_clusters (sha nfc : String → String) (summary : List (String × FpCluster)) :
    List OcItem :=
  List.insertionSort ocLE (mkOcItems sha nfc summary)

/-- Strictly-greater comparison on the max key (like_count, normalized_text)
used at line 107; Python max keeps the first element among key ties, so the
fold replaces the best only on a strictly greater key. -/
def maxKeyGT (nfc : String → String) (a b : FpSample) : Bool :=
  let ka := (likeOf a, normalize_text nfc a.text none)
  let kb := (likeOf b, normalize_text nfc b.text none)
  kb.1 < ka.1 ∨ (ka.1 = kb.1 ∧ kb.2.data < ka.2.data)

/-- Python max(samples, key=...), returning the first maximal element;
none on an empty list (the source guards against that case). -/
def pyMaxSample (nfc : String → String) : List FpSample → Option FpSample
  | [] => none
  | x :: xs => some (xs.foldl (fun best y => if maxKeyGT nfc y best then y else best) x)

/-- select_reaction_samples (lines 92-125): the top sample of each ordered
cluster, then global top comments by (-likes, text), deduplicated by
normalized text, capped at number-of-clusters + TOP_K_GLOBAL_REACTIONS.
The seen set always equals the set of picked texts, so membership in the
picked list models it. -/
def select_reaction_samples (sha nfc : String → String)
    (summary : List (String × FpCluster)) (comments : List FpSample) : List String :=
  let ordered := order_clusters sha nfc summary
  let picked1 := ordered.foldl
    (fun picked it =>
      match pyMaxSample nfc it.2.1.samples with
      | none => picked
      | some top =>
        let norm := normalize_text nfc top.text none
        if norm ≠ "" ∧ norm ∉ picked then picked ++ [norm] else picked)
    []
  let globalSorted := List.insertionSort (sampleLE nfc) comments
  let cap := ordered.length + TOP_K_GLOBAL_REACTIONS
  globalSorted.foldl
    (fun picked c =>
      if picked.length ≥ cap then picked
      else
        let norm := normalize_text nfc c.text none
        if norm ≠ "" ∧ norm ∉ picked then picked ++ [norm] else picked)
    picked1

/-- One image record as read at lines 148-159. -/
structure FpImage where
  full_text : Option String
  ocr_full_text : Option String
  text : Option String
  ocr : Option String
deriving DecidableEq

/-- img.get("full_text") or img.get("ocr_full_text") or img.get("text") or
img.get("ocr"): the first truthy value, if any. -/
def imageOcr (img : FpImage) : Option String :=
  let keep : Option String → Option String := fun o =>
    match o with
    | some s => if s = "" then none else some s
    | none => none
  (keep img.full_text).orElse (fun _ =>
    (keep img.ocr_full_text).orElse (fun _ =>
      (keep img.text).orElse (fun _ => keep img.ocr)))

/-- EvidenceBundle (lines 128-135). -/
structure EvidenceBundle where
  fingerprint : String
  case_id : String
  trigger : String
  artifact : String
  reactions : List String
  version : String
deriving DecidableEq

/-- build_evidence_bundle (lines 138-183). -/
def build_evidence_bundle (sha nfc : String → String) (post_text ocr_full_text : String)
    (comments : List FpSample) (summary : List (String × FpCluster))
    (images : List FpImage) : EvidenceBundle :=
  let trigger := normalize_text nfc post_text (some TRIGGER_MAX_LEN)
  let ocr_parts := images.foldr
    (fun img acc => match imageOcr img with | some t => t :: acc | none => acc) []
  let artifact_source :=
    if ocr_parts ≠ [] then String.intercalate "\n" ocr_parts else ocr_full_text
  let artifact := normalize_text nfc artifact_source (some ARTIFACT_MAX_LEN)
  let reactions0 := select_reaction_samples sha nfc summary comments
  let reactions := (reactions0.filter (· ≠ "")).map
    (fun r => normalize_text nfc r (some REACTION_MAX_LEN))
  let joined_reactions := String.intercalate "\n" reactions
  let template :=
    "TRIGGER:\n" ++ trigger ++ "\n\nARTIFACT:\n" ++ artifact ++
      "\n\nREACTIONS:\n" ++ joined_reactions ++ "\n"
  let fingerprint := pyStrip template
  { fingerprint := fingerprint
    case_id := sha fingerprint
    trigger := trigger
    artifact := artifact
    reactions := reactions
    version := "v1" }

/-! ## Degraded cached reads (job_manager.py lines 64-110, routers/jobs.py lines 19-34)

A single database call attempt either returns data, raises an allowlisted
transient network error, or raises a logic error.  _retry_db makes up to 3
attempts; the attempt outcomes are a function of the attempt index. -/

/-- Outcome of one db call attempt inside _retry_db. -/
inductive DbAttempt (α : Type) where
  | ok (res : α)
  | transient (err : String)
  | logicErr (err : String)

/-- The attempt loop of _retry_db (lines 66-86): an allowlisted transient
error backs off and retries, any other exception re-raises, success returns
the result.  When the fuel (remaining attempts) runs out the wrapper returns
None (line 89). -/
def retryFrom (f : Nat → DbAttempt α) : Nat → Nat → Except String (Option α)
  | _, 0 => .ok none
  | i, fuel + 1 =>
    match f i with
    | .ok r => .ok (some r)
    | .transient _ => retryFrom f (i + 1) fuel
    | .logicErr e => .error e

/-- _retry_db with its default retries = 3. -/
def retry_db (f : Nat → DbAttempt α) : Except String (Option α) := retryFrom f 0 3

/-- One bounded-cache entry: insertion time and cached data. -/
structure CacheEntry (α : Type) where
  time : Rat
  data : α

/-- _cached_call (lines 91-110), for a list-valued read (the job list and job
items reads both produce row lists; the empty fallback payload is the empty
list).  Returns the payload, the degraded flag, and the cache entry after the
call; a logic error propagates to the caller. -/
def cached_call (now ttl : Rat) (cached : Option (CacheEntry (List ρ)))
    (f : Nat → DbAttempt (List ρ)) :
    Except String (List ρ × Bool × Option (CacheEntry (List ρ))) :=
  match cached with
  | some c =>
    if now - c.time < ttl then .ok (c.data, false, some c)
    else
      match retry_db f with
      | .error e => .error e
      | .ok none => .ok (c.data, true, some c)
      | .ok (some res) => .ok (res, false, some { time := now, data := res })
  | none =>
    match retry_db f with
    | .error e => .error e
    | .ok none => .ok ([], true, none)
    | .ok (some res) => .ok (res, false, some { time := now, data := res })

/-- Response of the jobs list route as external observers see it. -/
structure RouteOut (ρ : Type) where
  payload : List ρ
  degradedFlag : Bool
  errorMsg : Option String
  headerDegradedSet : Bool

/-- GET /api/jobs/ (routers/jobs.py lines 19-34): a raised error yields the
empty degraded body with the x-ops-degraded header; otherwise the header is
set exactly when the manager reported degraded = True. -/
def list_jobs_route (callResult : Except String (List ρ × Bool × Option (CacheEntry (List ρ)))) :
    RouteOut ρ :=
  match callResult with
  | .error e =>
    { payload := [], degradedFlag := true, errorMsg := some e, headerDegradedSet := true }
  | .ok (data, degraded, _) =>
    { payload := data, degradedFlag := degraded, errorMsg := none
      headerDegradedSet := degraded }

/-! ## PhenomenonEnricher.submit framing (phenomenon_enricher.py lines 83-125)

submit hands _run_safe a deep copy of the analysis payload on both the inline
path (line 112) and the thread-pool path (line 120), and every later mutation
of the payload dict happens through that reference.  We model the mutable
dict store as a heap of payload values addressed by naturals: deepcopy
allocates a fresh address holding the same value, and the patch is a write at
the address _run_safe received. -/

/-- The enricher flags read by submit (lines 69-81, 90-95, 109). -/
structure EnrichConfig where
  enabled : Bool
  hasSupabase : Bool
  runInline : Bool

/-- A heap of payload values: cells below next are allocated. -/
structure PayloadHeap (α : Type) where
  mem : Nat → α
  next : Nat

/-- Allocate a fresh cell holding v (the result of copy.deepcopy). -/
def heapAlloc (h : PayloadHeap α) (v : α) : PayloadHeap α × Nat :=
  ({ mem := fun a => if a = h.next then v else h.mem a, next := h.next + 1 }, h.next)

/-- Overwrite the cell at addr. -/
def heapWrite (h : PayloadHeap α) (addr : Nat) (v : α) : PayloadHeap α :=
  { h with mem := fun a => if a = addr then v else h.mem a }

/-- PhenomenonEnricher.submit, at the granularity of payload-dict mutations.
patch is the in-place transformation _run_safe applies to the dict it was
given (phenomenon block update and top-level key writes, lines 268-279);
callerAddr is the dict the pipeline handed in.  Disabled enrichment and a
missing supabase client return before touching anything (lines 90-95); both
the inline and the pool branch run the patch on the fresh deep copy (the pool
branch merely runs it later). -/
def submitPayload (cfg : EnrichConfig) (patch : α → α) (h : PayloadHeap α)
    (callerAddr : Nat) : PayloadHeap α :=
  if ¬cfg.enabled then h
  else if ¬cfg.hasSupabase then h
  else
    let alloc := heapAlloc h (h.mem callerAddr)
    let h1 := alloc.1
    let copyAddr := alloc.2
    if cfg.runInline then heapWrite h1 copyAddr (patch (h1.mem copyAddr))
    else heapWrite h1 copyAddr (patch (h1.mem copyAddr))

/-! ## Concrete inputs used by counterexamples and witnesses -/

/-- An enrichment environment in which every external call succeeds except
the increment_occurrence RPC, which is rejected by the database. -/
def c3Env : EnrichEnv :=
  { embedResult := .ok (List.replicate 768 0)
    patchUpdateOutcome := .ok ()
    registryUpsertOutcome := .ok ()
    incrementRpcOutcome := .error "permission denied for function increment_occurrence"
    unexpectedCrash := none }

/-- A pending analysis payload (patch eligible). -/
def c3PayloadEx : C3Payload :=
  { phen_id := none, phen_status := some "pending", phenomenon_status := none
    phenomenon_case_id := none, match_ruleset_version := none
    fingerprint_version := none, registry_version := none }

/-- A minted match result for the enrichment run. -/
def c3MatchEx : PhenomenonMatchResult :=
  { phenomenon_id := "d41d8cd9-aaaa-bbbb-cccc-000000000001", status := "minted"
    decision := "MINT_NEW", confidence := 100, ruleset_version := "v1"
    case_id := "case-1" }

/-- A similarity matrix marking only the pair (0, 1), above the echo threshold. -/
def c6Sim : Nat → Nat → Rat := fun i j => if i = 0 ∧ j = 1 then 95 / 100 else 0

/-- Two clusters of equal size whose signature inputs are the same string
"a" ++ newline ++ "b" (so their signature hashes agree for every hash
function), but whose like counts make the per-cluster top reaction pick
differ: cluster c1 picks "a", cluster c2 picks "b". -/
def c9ClusterOne : FpCluster :=
  { size := some 1, count := none, share := none, pct := none, percentage := none
    samples := [{ like_count := some 5, likes := none, text := "a" },
                { like_count := some 4, likes := none, text := "b" }] }

/-- The tying partner of c9ClusterOne: same size, same signature input,
different top pick. -/
def c9ClusterTwo : FpCluster :=
  { size := some 1, count := none, share := none, pct := none, percentage := none
    samples := [{ like_count := some 7, likes := none, text := "a" },
                { like_count := some 7, likes := none, text := "b" }] }

/-- A cluster summary in one insertion order. -/
def c9SummaryA : List (String × FpCluster) := [("c1", c9ClusterOne), ("c2", c9ClusterTwo)]

/-- The same cluster summary with the dictionary keys permuted. -/
def c9SummaryB : List (String × FpCluster) := [("c2", c9ClusterTwo), ("c1", c9ClusterOne)]

/-- Two clusters with distinct sizes (distinct sort keys). -/
def c9ClusterBig : FpCluster :=
  { size := some 2, count := none, share := none, pct := none, percentage := none
    samples := [{ like_count := some 3, likes := none, text := "alpha" }] }

/-- Companion cluster with size 1. -/
def c9ClusterSmall : FpCluster :=
  { size := some 1, count := none, share := none, pct := none, percentage := none
    samples := [{ like_count := some 2, likes := none, text := "beta" }] }

/-- A key-distinct summary in one insertion order. -/
def c9SummaryC : List (String × FpCluster) := [("a", c9ClusterBig), ("b", c9ClusterSmall)]

/-- The same key-distinct summary permuted. -/
def c9SummaryD : List (String × FpCluster) := [("b", c9ClusterSmall), ("a", c9ClusterBig)]

/-- A db-call function that always raises an allowlisted transient error. -/
def c8Transient : Nat → DbAttempt (List Nat) := fun _ => .transient "read timeout"

/-- A db-call function that succeeds on the first attempt. -/
def c8Healthy : Nat → DbAttempt (List Nat) := fun _ => .ok [42]

/-- A cache entry written at time 0 holding one row. -/
def c8Entry : CacheEntry (List Nat) := { time := 0, data := [7] }

/-! # Theorems -/

/-! ## Shared helper lemmas -/

/-- Two disjoint countP counts never exceed the list length. -/
theorem countP_add_countP_le_length (p q : α → Bool) :
    ∀ l : List α, (∀ x ∈ l, ¬(p x = true ∧ q x = true)) →
      l.countP p + l.countP q ≤ l.length := by
  intro l
  induction l with
  | nil => intro _; simp
  | cons a t ih =>
    intro h
    have ha := h a (by simp)
    have ht := ih (fun x hx => h x (by simp [hx]))
    cases hp : p a with
    | true =>
      have hq : q a = false := by
        cases hq2 : q a with
        | true => exact absurd ⟨hp, hq2⟩ ha
        | false => rfl
      simp [List.countP_cons, hp, hq]
      omega
    | false =>
      cases hq : q a with
      | true =>
        simp [List.countP_cons, hp, hq]
        omega
      | false =>
        simp [List.countP_cons, hp, hq]
        omega

/-! ## C1 -/

/-- Claim C1 (code_bug evidence): for the fully populated artifact c1Artifact
(allowlisted version, non-empty post id, text and timestamp, phenomenon
status pending, and, as for every AnalysisV4, no evidence block),
validate_analysis_json still fails with the evidence-count requirement; in
fact no AnalysisV4 at all can validate, because the evidence check is applied
even when no evidence block exists. -/
theorem c1_validate_evidence_always_required :
    validate_analysis_json c1Artifact =
      (false, "missing_required_fields", ["phenomenon.evidence>=2"]) ∧
    ∀ a : AnalysisV4, (validate_analysis_json a).1 = false := by
  constructor
  · decide
  · intro a
    by_cases h1 : a.post.post_id = "" <;>
      by_cases h2 : optStrTruthy a.post.text = true <;>
        by_cases h3 : a.post.timestamp.isNone = true <;>
          by_cases h4 : (¬optStrTruthy a.phenomenon.id = true ∧
              ¬optStrTruthy a.phenomenon.name = true ∧
              a.phenomenon.status ≠ some "pending") <;>
            simp [validate_analysis_json, h1, h2, h3, h4]

/-! ## C2 -/

/-- Claim C2: on the Pipeline A worker path, an item is completed only when
the post row selected by the resolved post id exists and has a truthy
analysis_json (hence non-null) or a truthy (hence non-empty) full_report;
whenever the worker reaches the lookup and the row is absent or lacks both
fields, the item is failed with ANALYSIS_MISSING; and every completion bumps
the success counter while every failure bumps the failed counter. -/
theorem c2_completed_requires_analysis (currentStage : String)
    (runner : Except String (Option String)) (recovered : Option String)
    (getPost : String → Option PostRowA) :
    (∀ pid, processItemA currentStage runner recovered getPost = .completed pid →
      ∃ row, getPost pid = some row ∧
        (row.analysis_json ≠ none ∨ ∃ s, row.full_report = some s ∧ s ≠ "")) ∧
    (∀ rp pid, runner = .ok rp → resolvedPid rp recovered = some pid → pid ≠ "" →
      (getPost pid = none ∨
        ∃ row, getPost pid = some row ∧ analysisTruthy row.analysis_json = false ∧
          optStrTruthy row.full_report = false) →
      processItemA currentStage runner recovered getPost =
        .failed "ANALYSIS_MISSING"
          (if currentStage = "analyst" ∨ currentStage = "store" then "analyst"
           else currentStage)) ∧
    (∀ pid stage, (ItemOutcome.completed pid).bump = (true, false) ∧
      (ItemOutcome.failed "ANALYSIS_MISSING" stage).bump = (false, true)) := by
  refine ⟨?_, ?_, fun pid stage => ⟨rfl, rfl⟩⟩
  · intro pid hc
    rcases runner with e | rp
    · simp [processItemA] at hc
    · rcases hres : resolvedPid rp recovered with _ | pid0
      · simp [processItemA, hres] at hc
      · by_cases htr : pid0 = ""
        · subst htr
          simp [processItemA, hres, optStrTruthy] at hc
        · have hptr : optStrTruthy (some pid0) = true := by simp [optStrTruthy, htr]
          rcases hrow : getPost pid0 with _ | row
          · simp [processItemA, hres, hrow, hptr] at hc
          · by_cases hja : analysisTruthy row.analysis_json = true
            · have heq : processItemA currentStage (.ok rp) recovered getPost =
                  .completed pid0 := by
                simp [processItemA, hres, hrow, hptr, hja]
              rw [heq] at hc
              cases hc
              refine ⟨row, hrow, Or.inl ?_⟩
              cases hx : row.analysis_json with
              | none => rw [hx] at hja; simp [analysisTruthy] at hja
              | some v => simp
            · by_cases hfr : optStrTruthy row.full_report = true
              · have heq : processItemA currentStage (.ok rp) recovered getPost =
                    .completed pid0 := by
                  simp [processItemA, hres, hrow, hptr, hja, hfr]
                rw [heq] at hc
                cases hc
                refine ⟨row, hrow, Or.inr ?_⟩
                cases hx : row.full_report with
                | none => rw [hx] at hfr; simp [optStrTruthy] at hfr
                | some s =>
                  rw [hx] at hfr
                  exact ⟨s, rfl, by simpa [optStrTruthy] using hfr⟩
              · simp [processItemA, hres, hrow, hptr, hja, hfr] at hc
  · intro rp pid hr hres hpid hrow
    subst hr
    have hptr : optStrTruthy (some pid) = true := by simp [optStrTruthy, hpid]
    have hmiss :
        (match getPost pid with
          | some row => analysisTruthy row.analysis_json || optStrTruthy row.full_report
          | none => false) = false := by
      rcases hrow with h | ⟨row, hrw, h1, h2⟩
      · rw [h]
      · rw [hrw]
        simp [h1, h2]
    simp [processItemA, hres, hptr, hmiss]

/-- Witness for C2: a healthy runner returning post id p1 whose row carries a
null analysis_json and an empty full_report is failed with ANALYSIS_MISSING
at stage analyst (currentStage store), and the failed counter flag is bumped. -/
theorem c2_witness :
    processItemA "store" (.ok (some "p1")) none
        (fun _ => some { analysis_json := none, full_report := some "" }) =
      .failed "ANALYSIS_MISSING" "analyst" ∧
    (ItemOutcome.failed "ANALYSIS_MISSING" "analyst").bump = (false, true) := by
  have h := c2_completed_requires_analysis "store" (.ok (some "p1")) none
    (fun _ => some { analysis_json := none, full_report := some "" })
  refine ⟨?_, (h.2.2 "p1" "analyst").2⟩
  have h2 := h.2.1 (some "p1") "p1" rfl (by decide) (by decide)
    (Or.inr ⟨{ analysis_json := none, full_report := some "" }, rfl, rfl, rfl⟩)
  simpa using h2

/-! ## C3 -/

/-- Counterexample to claim C3: with every other external call healthy, a
failing increment_occurrence RPC does NOT propagate out of the registry-upsert
step.  The raised RuntimeError (with the operator hint) is caught by the
registry-upsert exception handler and recorded as a warning only, and the run
still reports enrichment_status = completed while the occurrence count was
never incremented. -/
theorem c3_counterexample :
    (run_safe c3Env "p1" c3PayloadEx c3MatchEx).enrichment_status = "completed" ∧
    (run_safe c3Env "p1" c3PayloadEx c3MatchEx).patch.occurrenceIncremented = false ∧
    (run_safe c3Env "p1" c3PayloadEx c3MatchEx).patch.registryWarning =
      some ("RPC increment_occurrence failed: permission denied for function increment_occurrence. "
        ++ occurrenceHint) := by
  refine ⟨?_, ?_, ?_⟩ <;> decide

/-- Claim C3 as amended: when the increment_occurrence RPC fails (and nothing
else goes wrong), the RuntimeError raised out of the occurrence-increment
sub-step is absorbed by the registry-upsert handler as a warning; the
occurrence count is not incremented and the enrichment run still reports
enrichment_status = completed. -/
theorem c3_increment_failure_absorbed (env : EnrichEnv) (post_id : String)
    (payload : C3Payload) (m : PhenomenonMatchResult) (emb : List Rat) (e : String)
    (hcrash : env.unexpectedCrash = none) (hemb : env.embedResult = .ok emb)
    (hdim : emb.length = EMBED_DIM) (hup : env.registryUpsertOutcome = .ok ())
    (hrpc : env.incrementRpcOutcome = .error e) (hpid : post_id ≠ "")
    (helig : patchEligible payload = true) :
    (run_safe env post_id payload m).enrichment_status = "completed" ∧
    (run_safe env post_id payload m).patch.occurrenceIncremented = false ∧
    (run_safe env post_id payload m).patch.registryWarning =
      some ("RPC increment_occurrence failed: " ++ e ++ ". " ++ occurrenceHint) := by
  have hreg : registryUpsertStep env =
      .error ("RPC increment_occurrence failed: " ++ e ++ ". " ++ occurrenceHint) := by
    unfold registryUpsertStep
    rw [hemb]
    simp [hdim, hup, hrpc]
  have hpatch : patch_analysis env post_id payload m =
      { skipped := false
        payload :=
          { phen_id := some m.phenomenon_id
            phen_status := some m.status
            phenomenon_status := some m.status
            phenomenon_case_id := some m.case_id
            match_ruleset_version := some m.ruleset_version
            fingerprint_version := some "v1"
            registry_version := some "v1" }
        dbPatchWarning := match env.patchUpdateOutcome with
          | .ok _ => none
          | .error e2 => some e2
        registryWarning :=
          some ("RPC increment_occurrence failed: " ++ e ++ ". " ++ occurrenceHint)
        occurrenceIncremented := false } := by
    unfold patch_analysis
    rw [if_neg hpid, if_neg (by simp [helig]), hreg]
  unfold run_safe
  rw [hcrash]
  simp [hpatch]

/-- Witness for the amended C3 theorem at the concrete failing environment. -/
theorem c3_witness :
    (run_safe c3Env "p1" c3PayloadEx c3MatchEx).enrichment_status = "completed" ∧
    (run_safe c3Env "p1" c3PayloadEx c3MatchEx).patch.occurrenceIncremented = false := by
  have h := c3_increment_failure_absorbed c3Env "p1" c3PayloadEx c3MatchEx
    (List.replicate 768 0) "permission denied for function increment_occurrence"
    rfl rfl (by decide) rfl rfl (by decide) (by decide)
  exact ⟨h.1, h.2.1⟩

/-! ## C4 -/

/-- Claim C4: match-or-mint takes the matched outcome with the candidate id
and confidence similarity times 100 exactly when the first (best) registry
candidate clears the threshold and carries an id; every other situation
(no candidates, low similarity, missing id, embedding failure, dimension
mismatch, RPC failure) mints the deterministic UUIDv5 of the fingerprint with
confidence 100, so two bundles with identical fingerprints always mint the
same id. -/
theorem c4_match_or_mint_spec (uuid5 : String → String) (env : MatchEnv)
    (fingerprint case_id : String) :
    (∀ emb best rest, env.embedResult = .ok emb → emb.length = EMBED_DIM →
      env.rpcResult = .ok (best :: rest) →
      best.similarity.getD 0 ≥ env.threshold → optStrTruthy best.id = true →
      match_or_mint uuid5 env fingerprint case_id =
        { phenomenon_id := best.id.getD ""
          status := "matched"
          decision := "MATCH_EXISTING"
          confidence := best.similarity.getD 0 * 100
          ruleset_version := MATCH_RULESET_VERSION
          case_id := case_id }) ∧
    (¬matchedCond env →
      match_or_mint uuid5 env fingerprint case_id =
        mintedResult uuid5 fingerprint case_id) ∧
    ((mintedResult uuid5 fingerprint case_id).phenomenon_id = uuid5 fingerprint ∧
      (mintedResult uuid5 fingerprint case_id).confidence = 100) ∧
    (∀ env2 fp2 cid2, fingerprint = fp2 →
      (match_or_mint uuid5 env fingerprint case_id).status = "minted" →
      (match_or_mint uuid5 env2 fp2 cid2).status = "minted" →
      (match_or_mint uuid5 env fingerprint case_id).phenomenon_id =
        (match_or_mint uuid5 env2 fp2 cid2).phenomenon_id) := by
  have hmint : ∀ (env3 : MatchEnv) (fp3 cid3 : String),
      (match_or_mint uuid5 env3 fp3 cid3).status = "minted" →
      (match_or_mint uuid5 env3 fp3 cid3).phenomenon_id = uuid5 fp3 := by
    rintro ⟨embR, rpcR, thr⟩ fp3 cid3 hs
    rcases embR with e | emb
    · simp [match_or_mint, mintedResult]
    · by_cases hd : emb.length ≠ EMBED_DIM
      · simp [match_or_mint, hd, mintedResult]
      · rcases rpcR with e2 | cands
        · simp [match_or_mint, hd, mintedResult]
        · rcases cands with _ | ⟨best, rest⟩
          · simp [match_or_mint, hd, mintedResult]
          · by_cases hcond : best.similarity.getD 0 ≥ thr ∧ optStrTruthy best.id = true
            · simp [match_or_mint, hd, hcond] at hs
            · simp [match_or_mint, hd, hcond, mintedResult]
  obtain ⟨embR, rpcR, thr⟩ := env
  refine ⟨?_, ?_, ⟨rfl, rfl⟩, ?_⟩
  · intro emb best rest hemb hdim hrpc hsim hid
    simp only at hemb hrpc
    subst hemb
    subst hrpc
    simp [match_or_mint, hdim, hsim, hid]
  · intro hnc
    rcases embR with e | emb
    · simp [match_or_mint]
    · by_cases hd : emb.length ≠ EMBED_DIM
      · simp [match_or_mint, hd]
      · rcases rpcR with e2 | cands
        · simp [match_or_mint, hd]
        · rcases cands with _ | ⟨best, rest⟩
          · simp [match_or_mint, hd]
          · by_cases hcond : best.similarity.getD 0 ≥ thr ∧ optStrTruthy best.id = true
            · exfalso
              exact hnc ⟨emb, best :: rest, best, rest, rfl, not_not.mp hd, rfl, rfl,
                hcond.1, hcond.2⟩
            · simp [match_or_mint, hd, hcond]
  · intro env2 fp2 cid2 hfp h1 h2
    rw [hmint ⟨embR, rpcR, thr⟩ fingerprint case_id h1, hmint env2 fp2 cid2 h2, hfp]

/-- Witness for C4: a candidate with similarity 0.9 above the default 0.86
threshold is matched with confidence 90; a registry RPC failure mints the
deterministic id. -/
theorem c4_witness :
    match_or_mint (fun s => "uuid5:" ++ s)
        { embedResult := .ok (List.replicate 768 0)
          rpcResult := .ok [{ id := some "phen-1", similarity := some (9 / 10) }]
          threshold := 86 / 100 } "fp-text" "case-1" =
      { phenomenon_id := "phen-1"
        status := "matched"
        decision := "MATCH_EXISTING"
        confidence := 9 / 10 * 100
        ruleset_version := MATCH_RULESET_VERSION
        case_id := "case-1" } ∧
    match_or_mint (fun s => "uuid5:" ++ s)
        { embedResult := .ok (List.replicate 768 0)
          rpcResult := .error "rpc missing"
          threshold := 86 / 100 } "fp-text" "case-1" =
      mintedResult (fun s => "uuid5:" ++ s) "fp-text" "case-1" := by
  constructor
  · have h := (c4_match_or_mint_spec (fun s => "uuid5:" ++ s)
      { embedResult := .ok (List.replicate 768 0)
        rpcResult := .ok [{ id := some "phen-1", similarity := some (9 / 10) }]
        threshold := 86 / 100 } "fp-text" "case-1").1
      (List.replicate 768 0) { id := some "phen-1", similarity := some (9 / 10) } []
      rfl (by decide) rfl (by norm_num) (by decide)
    simpa using h
  · have h := (c4_match_or_mint_spec (fun s => "uuid5:" ++ s)
      { embedResult := .ok (List.replicate 768 0)
        rpcResult := .error "rpc missing"
        threshold := 86 / 100 } "fp-text" "case-1").2.1
      (by
        rintro ⟨emb, cands, best, rest, _, _, hrpc, _, _, _⟩
        exact absurd hrpc (by simp))
    exact h

/-! ## C5 -/

/-- Counterexample to claim C5: a single item row whose status reads completed
while its stage reads failed is counted both as success and as failed, so the
summary reports processed_count = 2 above total_count = 1. -/
theorem c5_counterexample :
    (summaryCounters [{ status := some "completed", stage := some "failed" }]).processed_count =
      (summaryCounters [{ status := some "completed", stage := some "failed" }]).success_count +
      (summaryCounters [{ status := some "completed", stage := some "failed" }]).failed_count ∧
    ¬((summaryCounters [{ status := some "completed", stage := some "failed" }]).processed_count ≤
      (summaryCounters [{ status := some "completed", stage := some "failed" }]).total_count) := by
  constructor
  · decide
  · decide

/-- Claim C5 as amended: the summary always satisfies
processed = success + failed, and processed is at most total whenever no
single row satisfies both the success predicate and the failed predicate
(which holds for every row whose status and stage do not straddle completed
and failed); a straddling row is double counted. -/
theorem c5_summary_counters (items : List JobItemRow) :
    (summaryCounters items).processed_count =
      (summaryCounters items).success_count + (summaryCounters items).failed_count ∧
    ((∀ it ∈ items, ¬(successPred it = true ∧ failedPred it = true)) →
      (summaryCounters items).processed_count ≤ (summaryCounters items).total_count) := by
  constructor
  · rfl
  · intro h
    exact countP_add_countP_le_length successPred failedPred items h

/-- Witness for the amended C5 theorem: consistent rows (one completed, one
failed) give processed = 2 = total. -/
theorem c5_witness :
    (summaryCounters [{ status := some "completed", stage := some "completed" },
        { status := some "failed", stage := some "failed" }]).processed_count ≤
      (summaryCounters [{ status := some "completed", stage := some "completed" },
        { status := some "failed", stage := some "failed" }]).total_count := by
  exact (c5_summary_counters _).2 (by decide)

/-! ## C7 -/

/-- Counterexample to claim C7: called with zero comments, the structure
mapper does not return a result record (no empty cluster summary, no echo
count, no homogeneity value); it aborts the step and returns None. -/
theorem c7_counterexample :
    perform_structure_mapping
      { embedOk := true, sim := fun _ _ => 0, simOk := true, kmeansLabels := .ok [] }
      [] = none := by
  rfl

/-- Claim C7 as amended: with zero comments perform_structure_mapping returns
None for every environment, so the caller proceeds with empty quant summary
and cluster samples rather than receiving a result record. -/
theorem c7_empty_comments_none (env : QuantEnv) (comments : List CommentC)
    (h : comments = []) : perform_structure_mapping env comments = none := by
  subst h
  rfl

/-- Witness for the amended C7 theorem at a concrete environment. -/
theorem c7_witness :
    perform_structure_mapping
      { embedOk := false, sim := fun _ _ => 0, simOk := false, kmeansLabels := .error "down" }
      [] = none :=
  c7_empty_comments_none _ [] rfl

/-! ## C10 -/

/-- Claim C10: submit never mutates the payload cell the caller handed in:
whichever of the early-return, inline or pool branch runs, every patch write
lands on the freshly allocated deep copy, so the value at the caller
address is unchanged. -/
theorem c10_submit_frame {α : Type} (cfg : EnrichConfig) (patch : α → α)
    (h : PayloadHeap α) (callerAddr : Nat) (hlt : callerAddr < h.next) :
    (submitPayload cfg patch h callerAddr).mem callerAddr = h.mem callerAddr := by
  have hne : callerAddr ≠ h.next := Nat.ne_of_lt hlt
  unfold submitPayload heapAlloc heapWrite
  by_cases he : cfg.enabled
  · by_cases hs : cfg.hasSupabase
    · simp [he, hs, hne]
    · simp [he, hs]
  · simp [he]

/-- Witness for C10 at a concrete one-cell heap. -/
theorem c10_witness :
    (submitPayload { enabled := true, hasSupabase := true, runInline := true }
        (fun n => n + 1) { mem := fun _ => (0 : Nat), next := 1 } 0).mem 0 = 0 := by
  exact c10_submit_frame _ _ _ _ (by decide)

/-! ## C8 -/

/-- Claim C8: for a cached read, three transient-failure attempts serve the
stale cached value with degraded = true (surfaced as the x-ops-degraded
header) when a cache entry exists, and the empty payload with degraded = true
when none does; a fresh cache hit and a successful retry both report
degraded = false and leave the header unset. -/
theorem c8_degraded_reads {ρ : Type} (now ttl : Rat) (c : CacheEntry (List ρ))
    (f : Nat → DbAttempt (List ρ)) (e0 e1 e2 : String) (d : List ρ) :
    (f 0 = .transient e0 → f 1 = .transient e1 → f 2 = .transient e2 →
      ¬(now - c.time < ttl) →
      cached_call now ttl (some c) f = .ok (c.data, true, some c) ∧
      (list_jobs_route (cached_call now ttl (some c) f)).headerDegradedSet = true) ∧
    (f 0 = .transient e0 → f 1 = .transient e1 → f 2 = .transient e2 →
      cached_call now ttl none f = .ok ([], true, none) ∧
      (list_jobs_route (cached_call now ttl none f)).headerDegradedSet = true) ∧
    (now - c.time < ttl →
      cached_call now ttl (some c) f = .ok (c.data, false, some c) ∧
      (list_jobs_route (cached_call now ttl (some c) f)).headerDegradedSet = false) ∧
    (retry_db f = .ok (some d) → ¬(now - c.time < ttl) →
      cached_call now ttl (some c) f = .ok (d, false, some { time := now, data := d }) ∧
      (list_jobs_route (cached_call now ttl (some c) f)).headerDegradedSet = false) ∧
    (retry_db f = .ok (some d) →
      cached_call now ttl none f = .ok (d, false, some { time := now, data := d }) ∧
      (list_jobs_route (cached_call now ttl none f)).headerDegradedSet = false) := by
  refine ⟨?_, ?_, ?_, ?_, ?_⟩
  · intro h0 h1 h2 hstale
    have hretry : retry_db f = .ok none := by
      unfold retry_db retryFrom
      rw [h0]
      unfold retryFrom
      rw [h1]
      unfold retryFrom
      rw [h2]
      rfl
    have hcc : cached_call now ttl (some c) f = .ok (c.data, true, some c) := by
      simp only [cached_call]
      rw [if_neg hstale, hretry]
    exact ⟨hcc, by rw [hcc]; rfl⟩
  · intro h0 h1 h2
    have hretry : retry_db f = .ok none := by
      unfold retry_db retryFrom
      rw [h0]
      unfold retryFrom
      rw [h1]
      unfold retryFrom
      rw [h2]
      rfl
    have hcc : cached_call now ttl none f = .ok ([], true, none) := by
      simp only [cached_call]
      rw [hretry]
    exact ⟨hcc, by rw [hcc]; rfl⟩
  · intro hfresh
    have hcc : cached_call now ttl (some c) f = .ok (c.data, false, some c) := by
      simp only [cached_call]
      rw [if_pos hfresh]
    exact ⟨hcc, by rw [hcc]; rfl⟩
  · intro hretry hstale
    have hcc : cached_call now ttl (some c) f =
        .ok (d, false, some { time := now, data := d }) := by
      simp only [cached_call]
      rw [if_neg hstale, hretry]
    exact ⟨hcc, by rw [hcc]; rfl⟩
  · intro hretry
    have hcc : cached_call now ttl none f =
        .ok (d, false, some { time := now, data := d }) := by
      simp only [cached_call]
      rw [hretry]
    exact ⟨hcc, by rw [hcc]; rfl⟩

/-- Witness for C8: with the db down (all attempts transient), a stale cache
entry is served degraded and an empty cache yields the empty degraded
payload; a fresh hit and a healthy first attempt are not degraded. -/
theorem c8_witness :
    cached_call 10 2 (some c8Entry) c8Transient = .ok ([7], true, some c8Entry) ∧
    cached_call 10 2 none c8Transient = .ok ([], true, none) ∧
    cached_call 1 2 (some c8Entry) c8Transient = .ok ([7], false, some c8Entry) ∧
    cached_call 10 2 none c8Healthy = .ok ([42], false, some { time := 10, data := [42] }) := by
  refine ⟨?_, ?_, ?_, ?_⟩
  · exact ((c8_degraded_reads 10 2 c8Entry c8Transient "read timeout" "read timeout"
      "read timeout" []).1 rfl rfl rfl (by norm_num [c8Entry])).1
  · exact ((c8_degraded_reads 10 2 c8Entry c8Transient "read timeout" "read timeout"
      "read timeout" []).2.1 rfl rfl rfl).1
  · exact ((c8_degraded_reads 1 2 c8Entry c8Transient "read timeout" "read timeout"
      "read timeout" []).2.2.1 (by norm_num [c8Entry])).1
  · exact ((c8_degraded_reads 10 2 c8Entry c8Healthy "x" "x" "x" [42]).2.2.2.2 rfl).1

/-! ## C6 -/

/-- The echo fold accumulates exactly the endpoints and the count of the
pairs satisfying the marking condition. -/
theorem echo_foldl_spec (sim : Nat → Nat → Rat) (texts : List String)
    (users : List (Option String)) :
    ∀ (l : List (Nat × Nat)) (acc : List Nat × Nat),
      l.foldl
        (fun acc p =>
          if echoCond sim texts users p then (acc.1 ++ [p.1, p.2], acc.2 + 1) else acc)
        acc =
      (acc.1 ++ (l.filter (echoCond sim texts users)).flatMap (fun p => [p.1, p.2]),
       acc.2 + (l.filter (echoCond sim texts users)).length) := by
  intro l
  induction l with
  | nil => intro acc; simp
  | cons p t ih =>
    intro acc
    rw [List.foldl_cons]
    by_cases hp : echoCond sim texts users p = true
    · rw [if_pos hp, ih, Prod.mk.injEq]
      constructor
      · simp [List.filter_cons, hp, List.append_assoc]
      · simp only [List.filter_cons, hp, if_true, List.length_cons]
        omega
    · rw [if_neg hp, ih, Prod.mk.injEq]
      constructor
      · simp [List.filter_cons, hp]
      · simp [List.filter_cons, hp]

/-- Membership of an ordered pair in the loop order of the echo scan. -/
theorem mem_pairList {n i j : Nat} : (i, j) ∈ pairList n ↔ i < j ∧ j < n := by
  simp only [pairList, List.mem_flatMap, List.mem_map, List.mem_filter, List.mem_range,
    Prod.mk.injEq]
  constructor
  · rintro ⟨a, ha, b, ⟨hb, hab⟩, rfl, rfl⟩
    exact ⟨by simpa using hab, hb⟩
  · rintro ⟨hij, hjn⟩
    exact ⟨i, lt_trans hij hjn, j, ⟨hjn, by simpa using hij⟩, rfl, rfl⟩

/-- Counterexample to claim C6: the pair of valid comments 0 and 1 with
cosine similarity 0.95, distinct users, first text of length 8 and SECOND
text of length 5 (below the floor) is nevertheless marked: both indices enter
the echo set and the high-similarity pair counter reads 1, because the source
checks the text-length floor only on the first index of the pair. -/
theorem c6_counterexample :
    echoScan c6Sim ["abcdefgh", "abcde"] [some "u1", some "u2"] 2 = ([0, 1], 1) ∧
    "abcde".length < 8 := by
  have hc : echoCond c6Sim ["abcdefgh", "abcde"] [some "u1", some "u2"] (0, 1) = true := by
    simp only [echoCond, c6Sim, decide_eq_true_eq]
    refine ⟨by norm_num, by decide, by decide⟩
  have hp2 : pairList 2 = [(0, 1)] := by decide
  constructor
  · unfold echoScan
    rw [hp2]
    simp [hc]
  · decide

/-- Claim C6 as amended: in the echo detection of the structure mapper, a
pair (i, j) with i < j of valid comments is marked, and counted, exactly when
their similarity exceeds 0.94, the LOWER-INDEX text has length at least 8
(the length of the second text is not consulted), and both users are present,
non-empty and distinct: the counter equals the number of such pairs in loop
order, and an index is marked template-like exactly when it belongs to such a
pair. -/
theorem c6_echo_marking (sim : Nat → Nat → Rat) (texts : List String)
    (users : List (Option String)) (n : Nat) :
    (echoScan sim texts users n).2 =
      ((pairList n).filter (echoCond sim texts users)).length ∧
    (∀ k, k ∈ (echoScan sim texts users n).1 ↔
      ∃ i j, (i < j ∧ j < n) ∧ echoCond sim texts users (i, j) = true ∧
        (k = i ∨ k = j)) ∧
    (∀ i j, echoCond sim texts users (i, j) = true ↔
      (sim i j > 94 / 100 ∧ (texts.getD i "").length ≥ 8 ∧
        ∃ ui uj, users.getD i none = some ui ∧ users.getD j none = some uj ∧
          ui ≠ "" ∧ uj ≠ "" ∧ ui ≠ uj)) := by
  have hfold := echo_foldl_spec sim texts users (pairList n) ([], 0)
  refine ⟨?_, ?_, ?_⟩
  · unfold echoScan
    rw [hfold]
    simp
  · intro k
    unfold echoScan
    rw [hfold]
    simp only [List.nil_append, Nat.zero_add, List.mem_flatMap, List.mem_filter]
    constructor
    · rintro ⟨⟨i, j⟩, ⟨hmem, hcond⟩, hk⟩
      have hij := mem_pairList.mp hmem
      refine ⟨i, j, hij, hcond, ?_⟩
      simpa using hk
    · rintro ⟨i, j, hij, hcond, hk⟩
      refine ⟨(i, j), ⟨mem_pairList.mpr hij, hcond⟩, ?_⟩
      simpa using hk
  · intro i j
    unfold echoCond
    constructor
    · intro h
      simp only [Bool.and_eq_true, decide_eq_true_eq] at h
      obtain ⟨hsim, hlen, hdiff⟩ := h
      refine ⟨hsim, hlen, ?_⟩
      rcases hui : users.getD i none with _ | ui
      · rw [hui] at hdiff
        simp [optStrTruthy] at hdiff
      · rcases huj : users.getD j none with _ | uj
        · rw [hui, huj] at hdiff
          simp [optStrTruthy] at hdiff
        · rw [hui, huj] at hdiff
          simp only [Bool.and_eq_true, decide_eq_true_eq, optStrTruthy] at hdiff
          refine ⟨ui, uj, rfl, rfl, ?_, ?_, ?_⟩
          · simpa using hdiff.1
          · simpa using hdiff.2.1
          · simpa using hdiff.2.2
    · rintro ⟨hsim, hlen, ui, uj, hui, huj, hui0, huj0, huij⟩
      rw [hui, huj]
      simp only [decide_eq_true_eq]
      refine ⟨hsim, hlen, ?_, ?_, ?_⟩
      · simp [optStrTruthy, hui0]
      · simp [optStrTruthy, huj0]
      · simp [huij]

/-! ## C9 -/

/-- Keys agree whenever the sort relation holds both ways. -/
theorem lexLEQ_antisymm_keys {a b : Rat × String} (h1 : lexLEQ a b) (h2 : lexLEQ b a) :
    a = b := by
  obtain ⟨a1, a2⟩ := a
  obtain ⟨b1, b2⟩ := b
  unfold lexLEQ at h1 h2
  simp only at h1 h2
  rcases h1 with h1 | ⟨h1e, h1s⟩
  · rcases h2 with h2 | ⟨h2e, h2s⟩
    · exact absurd h2 (lt_asymm h1)
    · exact absurd h1 (h2e ▸ lt_irrefl b1)
  · rcases h2 with h2 | ⟨h2e, h2s⟩
    · exact absurd h2 (h1e ▸ lt_irrefl b1)
    · rw [h1e, String.ext (le_antisymm h1s h2s)]

/-- Two sorted permutations of each other coincide when their sort keys are
pairwise distinct and the relation is antisymmetric up to keys: this is what
makes a stable sort insensitive to the input order exactly when no two
elements tie on the full sort key. -/
theorem eq_of_perm_sorted_nodup_keys {α κ : Type} {r : α → α → Prop} {k : α → κ}
    (hanti : ∀ a b, r a b → r b a → k a = k b) :
    ∀ {l₁ l₂ : List α}, l₁.Perm l₂ → l₁.Sorted r → l₂.Sorted r →
      (l₁.map k).Nodup → l₁ = l₂ := by
  intro l₁
  induction l₁ with
  | nil =>
    intro l₂ hp _ _ _
    exact hp.nil_eq
  | cons a t ih =>
    intro l₂ hp hs₁ hs₂ hnd
    cases l₂ with
    | nil => exact absurd hp.eq_nil (by simp)
    | cons b t₂ =>
      by_cases hab : a = b
      · subst hab
        have hpt : t.Perm t₂ := hp.cons_inv
        have htail := ih hpt ((List.sorted_cons.mp hs₁).2) ((List.sorted_cons.mp hs₂).2)
          (by simpa using (List.nodup_cons.mp (by simpa using hnd)).2)
        rw [htail]
      · exfalso
        have hbmem : b ∈ a :: t := hp.symm.subset (List.mem_cons_self b t₂)
        have hamem : a ∈ b :: t₂ := hp.subset (List.mem_cons_self a t)
        have hb_t : b ∈ t := by
          rcases List.mem_cons.mp hbmem with h | h
          · exact absurd h.symm hab
          · exact h
        have ha_t₂ : a ∈ t₂ := by
          rcases List.mem_cons.mp hamem with h | h
          · exact absurd h hab
          · exact h
        have hrab : r a b := (List.sorted_cons.mp hs₁).1 b hb_t
        have hrba : r b a := (List.sorted_cons.mp hs₂).1 a ha_t₂
        have hk : k a = k b := hanti a b hrab hrba
        have hnotin : k a ∉ t.map k := (List.nodup_cons.mp (by simpa using hnd)).1
        exact hnotin (hk ▸ List.mem_map_of_mem k hb_t)

/-- order_clusters is invariant under permutations of the cluster dictionary
whenever the annotated items carry pairwise distinct (size, signature) sort
keys. -/
theorem order_clusters_perm_eq (sha nfc : String → String)
    {l₁ l₂ : List (String × FpCluster)} (hperm : l₁.Perm l₂)
    (hnd : ((mkOcItems sha nfc l₁).map ocKey).Nodup) :
    order_clusters sha nfc l₁ = order_clusters sha nfc l₂ := by
  have hitems : (mkOcItems sha nfc l₁).Perm (mkOcItems sha nfc l₂) := hperm.map _
  have hp : (List.insertionSort ocLE (mkOcItems sha nfc l₁)).Perm
      (List.insertionSort ocLE (mkOcItems sha nfc l₂)) :=
    (List.perm_insertionSort ocLE _).trans
      (hitems.trans (List.perm_insertionSort ocLE _).symm)
  have hnd₁ : ((List.insertionSort ocLE (mkOcItems sha nfc l₁)).map ocKey).Nodup :=
    (((List.perm_insertionSort ocLE (mkOcItems sha nfc l₁)).map ocKey).nodup_iff).mpr hnd
  unfold order_clusters
  exact eq_of_perm_sorted_nodup_keys
    (fun a b hab hba => lexLEQ_antisymm_keys hab hba) hp
    (List.sorted_insertionSort ocLE _) (List.sorted_insertionSort ocLE _) hnd₁

/-- Counterexample to claim C9: the summaries c9SummaryA and c9SummaryB hold
the same two clusters and differ only in dictionary insertion order, yet
their evidence-bundle fingerprints differ character by character.  The two
clusters tie on size and on signature-hash input (the identical string made
of the texts a and b), so the stable sort preserves insertion order and the
per-cluster top reaction picks ("a" for one cluster, "b" for the other) swap
places in the REACTIONS slot.  The hash and NFC parameters are instantiated
with the identity; because the two signature preimages are character
identical, the tie, and hence the inequality, arises for every hash function,
including SHA-256. -/
theorem c9_counterexample :
    (build_evidence_bundle id id "t" "" [] c9SummaryA []).fingerprint ≠
      (build_evidence_bundle id id "t" "" [] c9SummaryB []).fingerprint ∧
    c9SummaryA.Perm c9SummaryB := by
  constructor
  · decide
  · exact List.Perm.swap ("c2", c9ClusterTwo) ("c1", c9ClusterOne) []

/-- Claim C9 as amended: the evidence-bundle fingerprint (indeed the whole
bundle, case id included) is invariant under any permutation of the
cluster-summary dictionary keys, provided no two clusters tie on both cluster
size and signature hash; when two clusters do tie on the full sort key, the
stable sort preserves dictionary insertion order and the fingerprint can
depend on it. -/
theorem c9_fingerprint_perm_invariant (sha nfc : String → String)
    (post_text ocr_full_text : String) (comments : List FpSample)
    (images : List FpImage) {l₁ l₂ : List (String × FpCluster)}
    (hperm : l₁.Perm l₂)
    (hnd : ((mkOcItems sha nfc l₁).map ocKey).Nodup) :
    build_evidence_bundle sha nfc post_text ocr_full_text comments l₁ images =
      build_evidence_bundle sha nfc post_text ocr_full_text comments l₂ images := by
  have h := order_clusters_perm_eq sha nfc hperm hnd
  unfold build_evidence_bundle select_reaction_samples
  rw [h]

/-- Witness for the amended C9 theorem: permuting two clusters with distinct
sizes leaves the whole bundle unchanged. -/
theorem c9_witness :
    build_evidence_bundle id id "trigger" "" [] c9SummaryC [] =
      build_evidence_bundle id id "trigger" "" [] c9SummaryD [] := by
  exact c9_fingerprint_perm_invariant id id "trigger" "" [] []
    (List.Perm.swap ("b", c9ClusterSmall) ("a", c9ClusterBig) [])
    (by decide)

end DiscourseLens
